import Mathlib

/-!
Shallow embedding of `internal/build/phase_config_provider.go` from
micahyoung/buildpacks-pack. The Go code builds, per lifecycle phase, a
container specification by applying an ordered list of mutating operations
(`PhaseConfigProviderOperation`) to a freshly allocated provider. Mutation of
the provider through a pointer is modelled as explicit state passing: an
operation is a total function `PhaseConfigProvider → PhaseConfigProvider`.
-/

namespace PackBuild

/-- Modelled from the spec: a deferred post-creation action
(`ContainerOperation`, declared elsewhere in the repository); the builder only
stores these values, never inspects them, so it is an abstract token here. -/
structure ContainerOperation where
  tag : Nat
deriving DecidableEq, Repr

/-- Modelled from the spec: a severity-leveled log sink (`io.Writer` obtained
from `logging.GetWriterForLevel`) possibly wrapped by
`logging.NewPrefixWriter`; the builder only selects and wraps sinks, so the
sink is an abstract tree recording base level and applied wrappings. -/
inductive Writer where
  | forLevel (logger : Nat) (level : String) : Writer
  | prefixed (inner : Writer) (pre : String) : Writer
deriving DecidableEq, Repr

/-- Modelled from the spec: `logging.GetWriterForLevel(logger, level)` returns
the level-scoped sink of the logger. -/
def GetWriterForLevel (logger : Nat) (level : String) : Writer :=
  Writer.forLevel logger level

/-- Modelled from the spec: `logging.NewPrefixWriter(w, prefix)` wraps a sink
so that every written line is prefixed; opaque wrapping constructor here. -/
def NewPrefixWriter (w : Writer) (pre : String) : Writer :=
  Writer.prefixed w pre

/-- The fields of docker `container.Config` that the Go file touches. -/
structure ContainerConfig where
  Image : String
  Env : List String
  Cmd : List String
  User : String
  Labels : List (String × String)
deriving DecidableEq, Repr

/-- The fields of docker `container.HostConfig` that the Go file touches.
`Isolation` is a string enum: `""` default, `"process"` for
`container.IsolationProcess`. -/
structure HostConfig where
  Binds : List String
  NetworkMode : String
  Isolation : String
deriving DecidableEq, Repr

/-- The fields of docker `types.ExecConfig` that the Go file sets. -/
structure ExecConfig where
  Cmd : List String
  Detach : Bool
  AttachStdin : Bool
  User : String
deriving DecidableEq, Repr

/-- Modelled from the spec: the options record of the execution context
(`lifecycleExec.opts`); only the fields the builder reads. `BuilderName`
stands for `opts.Builder.Name()`. -/
structure LifecycleOptions where
  BuilderName : String
  HTTPProxy : String
  HTTPSProxy : String
  NoProxy : String
deriving DecidableEq, Repr

/-- Modelled from the spec: the execution context (`*LifecycleExecution`,
declared elsewhere in the repository); only the fields the builder reads.
`platformAPI` stands for `platformAPI.String()`, `layersDir` and `appDir`
for `mountPaths.layersDir()` and `mountPaths.appDir()`. -/
structure LifecycleExecution where
  os : String
  opts : LifecycleOptions
  platformAPI : String
  layersVolume : String
  appVolume : String
  layersDir : String
  appDir : String
  logger : Nat
deriving DecidableEq, Repr

/-- `PhaseConfigProvider` (lines 23-32 of the Go file). -/
structure PhaseConfigProvider where
  ctrConf : ContainerConfig
  ctrExecs : List ExecConfig
  hostConf : HostConfig
  name : String
  os : String
  containerOps : List ContainerOperation
  infoWriter : Writer
  errorWriter : Writer
deriving DecidableEq, Repr

/-- `PhaseConfigProviderOperation` (line 21): a mutation of the provider,
modelled as explicit state passing. -/
def PhaseConfigProviderOperation := PhaseConfigProvider → PhaseConfigProvider

def linuxContainerAdmin : String := "root"

def windowsContainerAdmin : String := "NT AUTHORITY\\SYSTEM"

def platformAPIEnvVar : String := "CNB_PLATFORM_API"

/-- Helper: append entries to `ctrConf.Env` (the Go
`provider.ctrConf.Env = append(provider.ctrConf.Env, ...)`). -/
def addEnv (provider : PhaseConfigProvider) (envs : List String) :
    PhaseConfigProvider :=
  { provider with
    ctrConf := { provider.ctrConf with Env := provider.ctrConf.Env ++ envs } }

/-- Helper: append entries to `hostConf.Binds` (the Go
`provider.hostConf.Binds = append(provider.hostConf.Binds, ...)`). -/
def addBinds (provider : PhaseConfigProvider) (binds : List String) :
    PhaseConfigProvider :=
  { provider with
    hostConf := { provider.hostConf with
      Binds := provider.hostConf.Binds ++ binds } }

/-- `NullOp` (lines 104-106): the returned closure does nothing. -/
def NullOp : PhaseConfigProviderOperation := fun provider => provider

/-- `WithArgs` (lines 108-112): appends to the command vector. -/
def WithArgs (args : List String) : PhaseConfigProviderOperation :=
  fun provider =>
    { provider with
      ctrConf := { provider.ctrConf with
        Cmd := provider.ctrConf.Cmd ++ args } }

/-- `WithFlags` (lines 115-119): prepends to the command vector. -/
def WithFlags (flags : List String) : PhaseConfigProviderOperation :=
  fun provider =>
    { provider with
      ctrConf := { provider.ctrConf with
        Cmd := flags ++ provider.ctrConf.Cmd } }

/-- `WithBinds` (lines 121-125): appends bind strings verbatim. -/
def WithBinds (binds : List String) : PhaseConfigProviderOperation :=
  fun provider => addBinds provider binds

/-- `WithEnv` (lines 138-142): appends raw env entries. -/
def WithEnv (envs : List String) : PhaseConfigProviderOperation :=
  fun provider => addEnv provider envs

/-- `WithImage` (lines 144-148): overwrites the image reference. -/
def WithImage (image : String) : PhaseConfigProviderOperation :=
  fun provider =>
    { provider with ctrConf := { provider.ctrConf with Image := image } }

/-- `WithNetwork` (lines 179-183): overwrites the network mode. -/
def WithNetwork (networkMode : String) : PhaseConfigProviderOperation :=
  fun provider =>
    { provider with
      hostConf := { provider.hostConf with NetworkMode := networkMode } }

/-- `WithRegistryAccess` (lines 185-189): appends one registry-auth env
entry. -/
def WithRegistryAccess (authConfig : String) : PhaseConfigProviderOperation :=
  fun provider => addEnv provider ["CNB_REGISTRY_AUTH=" ++ authConfig]

/-- `WithRoot` (lines 191-208): windows sets the SYSTEM user and replaces
`ctrExecs` with the single blocking exec descriptor; otherwise sets root. -/
def WithRoot : PhaseConfigProviderOperation := fun provider =>
  if provider.os = "windows" then
    { provider with
      ctrConf := { provider.ctrConf with User := windowsContainerAdmin },
      ctrExecs := [{ Cmd := ["cmd.exe", "/c", "set /p wait="],
                     Detach := true, AttachStdin := true, User := "" }] }
  else
    { provider with
      ctrConf := { provider.ctrConf with User := linuxContainerAdmin } }

/-- The POSIX daemon-socket bind string (line 130). -/
def posixDaemonBind : String := "/var/run/docker.sock:/var/run/docker.sock"

/-- The Windows named-pipe daemon bind string (line 132). -/
def windowsDaemonBind : String :=
  "\\\\.\\pipe\\docker_engine:\\\\.\\pipe\\docker_engine"

/-- `WithDaemonAccess` (lines 127-136): elevates via `WithRoot`, then appends
the OS-appropriate daemon bind. -/
def WithDaemonAccess : PhaseConfigProviderOperation := fun provider =>
  let provider := WithRoot provider
  let bind :=
    if provider.os = "windows" then windowsDaemonBind else posixDaemonBind
  addBinds provider [bind]

/-- `WithLogPrefix` (lines 151-158): no-op for the empty prefix, otherwise
wraps both sinks. -/
def WithLogPrefix (pre : String) : PhaseConfigProviderOperation :=
  fun provider =>
    if pre ≠ "" then
      { provider with
        infoWriter := NewPrefixWriter provider.infoWriter pre,
        errorWriter := NewPrefixWriter provider.errorWriter pre }
    else provider

/-- `WithLifecycleProxy` (lines 160-177): for each non-empty proxy setting,
appends the upper-case and lower-case env entries. -/
def WithLifecycleProxy (lifecycleExec : LifecycleExecution) :
    PhaseConfigProviderOperation := fun provider =>
  let provider :=
    if lifecycleExec.opts.HTTPProxy ≠ "" then
      addEnv provider
        ["HTTP_PROXY=" ++ lifecycleExec.opts.HTTPProxy,
         "http_proxy=" ++ lifecycleExec.opts.HTTPProxy]
    else provider
  let provider :=
    if lifecycleExec.opts.HTTPSProxy ≠ "" then
      addEnv provider
        ["HTTPS_PROXY=" ++ lifecycleExec.opts.HTTPSProxy,
         "https_proxy=" ++ lifecycleExec.opts.HTTPSProxy]
    else provider
  let provider :=
    if lifecycleExec.opts.NoProxy ≠ "" then
      addEnv provider
        ["NO_PROXY=" ++ lifecycleExec.opts.NoProxy,
         "no_proxy=" ++ lifecycleExec.opts.NoProxy]
    else provider
  provider

/-- `WithContainerOperations` (lines 210-214): appends deferred actions. -/
def WithContainerOperations (operations : List ContainerOperation) :
    PhaseConfigProviderOperation := fun provider =>
  { provider with containerOps := provider.containerOps ++ operations }

/-- The provider value built by lines 35-49 of `NewPhaseConfigProvider`:
fresh descriptors, image and authorship label set, windows isolation forced. -/
def initProvider (name : String) (lifecycleExec : LifecycleExecution) :
    PhaseConfigProvider :=
  { ctrConf := { Image := lifecycleExec.opts.BuilderName, Env := [], Cmd := [],
                 User := "", Labels := [("author", "pack")] },
    ctrExecs := [],
    hostConf := { Binds := [], NetworkMode := "",
                  Isolation := if lifecycleExec.os = "windows"
                               then "process" else "" },
    name := name,
    os := lifecycleExec.os,
    containerOps := [],
    infoWriter := GetWriterForLevel lifecycleExec.logger "info",
    errorWriter := GetWriterForLevel lifecycleExec.logger "error" }

/-- The platform-API env entry appended at line 52. -/
def platformEnvEntry (lifecycleExec : LifecycleExecution) : String :=
  platformAPIEnvVar ++ "=" ++ lifecycleExec.platformAPI

/-- The layers-volume bind string built at line 55. -/
def layersBind (lifecycleExec : LifecycleExecution) : String :=
  lifecycleExec.layersVolume ++ ":" ++ lifecycleExec.layersDir

/-- The app-volume bind string built at line 56. -/
def appBind (lifecycleExec : LifecycleExecution) : String :=
  lifecycleExec.appVolume ++ ":" ++ lifecycleExec.appDir

/-- The mandatory operations appended after the caller operations at lines
51-58. -/
def mandatoryOps (lifecycleExec : LifecycleExecution) :
    List PhaseConfigProviderOperation :=
  [WithEnv [platformEnvEntry lifecycleExec],
   WithLifecycleProxy lifecycleExec,
   WithBinds [layersBind lifecycleExec, appBind lifecycleExec]]

/-- The application loop of lines 60-62: apply each operation in order. -/
def applyOps (ops : List PhaseConfigProviderOperation)
    (provider : PhaseConfigProvider) : PhaseConfigProvider :=
  ops.foldl (fun p op => op p) provider

/-- Line 64: prepend the lifecycle binary path to the command vector. -/
def finalizeCmd (name : String) (provider : PhaseConfigProvider) :
    PhaseConfigProvider :=
  { provider with
    ctrConf := { provider.ctrConf with
      Cmd := ("/cnb/lifecycle/" ++ name) :: provider.ctrConf.Cmd } }

/-- `NewPhaseConfigProvider` (lines 34-78): initialize, append the mandatory
operations after the caller operations, apply all in order, finalize the
command vector. The debug logging of lines 66-76 writes no state. -/
def NewPhaseConfigProvider (name : String)
    (lifecycleExec : LifecycleExecution)
    (ops : List PhaseConfigProviderOperation) : PhaseConfigProvider :=
  finalizeCmd name
    (applyOps (ops ++ mandatoryOps lifecycleExec)
      (initProvider name lifecycleExec))

/-- A tagged surrogate of the operation catalog of the Go file, used to
quantify over "any list of catalog operations"; `run` maps each tag to the
operation it names. -/
inductive CatalogOp where
  | withArgs (args : List String)
  | withFlags (flags : List String)
  | withBinds (binds : List String)
  | withDaemonAccess
  | withEnv (envs : List String)
  | withImage (image : String)
  | withLogPrefix (pre : String)
  | withLifecycleProxy (lifecycleExec : LifecycleExecution)
  | withNetwork (networkMode : String)
  | withRegistryAccess (authConfig : String)
  | withRoot
  | withContainerOperations (operations : List ContainerOperation)
  | nullOp
deriving DecidableEq, Repr

def CatalogOp.run : CatalogOp → PhaseConfigProviderOperation
  | withArgs args => WithArgs args
  | withFlags flags => WithFlags flags
  | withBinds binds => WithBinds binds
  | withDaemonAccess => WithDaemonAccess
  | withEnv envs => WithEnv envs
  | withImage image => WithImage image
  | withLogPrefix pre => WithLogPrefix pre
  | withLifecycleProxy lifecycleExec => WithLifecycleProxy lifecycleExec
  | withNetwork networkMode => WithNetwork networkMode
  | withRegistryAccess authConfig => WithRegistryAccess authConfig
  | withRoot => WithRoot
  | withContainerOperations operations => WithContainerOperations operations
  | nullOp => NullOp

/-- The env entries `WithLifecycleProxy` contributes, as a function of the
execution context alone. -/
def proxyEnvs (lifecycleExec : LifecycleExecution) : List String :=
  (if lifecycleExec.opts.HTTPProxy ≠ "" then
     ["HTTP_PROXY=" ++ lifecycleExec.opts.HTTPProxy,
      "http_proxy=" ++ lifecycleExec.opts.HTTPProxy]
   else []) ++
  (if lifecycleExec.opts.HTTPSProxy ≠ "" then
     ["HTTPS_PROXY=" ++ lifecycleExec.opts.HTTPSProxy,
      "https_proxy=" ++ lifecycleExec.opts.HTTPSProxy]
   else []) ++
  (if lifecycleExec.opts.NoProxy ≠ "" then
     ["NO_PROXY=" ++ lifecycleExec.opts.NoProxy,
      "no_proxy=" ++ lifecycleExec.opts.NoProxy]
   else [])

section Lemmas

@[simp] lemma addEnv_Env (p : PhaseConfigProvider) (es : List String) :
    (addEnv p es).ctrConf.Env = p.ctrConf.Env ++ es := rfl

@[simp] lemma addEnv_Binds (p : PhaseConfigProvider) (es : List String) :
    (addEnv p es).hostConf.Binds = p.hostConf.Binds := rfl

@[simp] lemma addEnv_Cmd (p : PhaseConfigProvider) (es : List String) :
    (addEnv p es).ctrConf.Cmd = p.ctrConf.Cmd := rfl

@[simp] lemma addEnv_Image (p : PhaseConfigProvider) (es : List String) :
    (addEnv p es).ctrConf.Image = p.ctrConf.Image := rfl

@[simp] lemma addEnv_ctrExecs (p : PhaseConfigProvider) (es : List String) :
    (addEnv p es).ctrExecs = p.ctrExecs := rfl

@[simp] lemma addEnv_os (p : PhaseConfigProvider) (es : List String) :
    (addEnv p es).os = p.os := rfl

@[simp] lemma addBinds_Binds (p : PhaseConfigProvider) (bs : List String) :
    (addBinds p bs).hostConf.Binds = p.hostConf.Binds ++ bs := rfl

@[simp] lemma addBinds_Env (p : PhaseConfigProvider) (bs : List String) :
    (addBinds p bs).ctrConf.Env = p.ctrConf.Env := rfl

@[simp] lemma addBinds_Cmd (p : PhaseConfigProvider) (bs : List String) :
    (addBinds p bs).ctrConf.Cmd = p.ctrConf.Cmd := rfl

@[simp] lemma addBinds_Image (p : PhaseConfigProvider) (bs : List String) :
    (addBinds p bs).ctrConf.Image = p.ctrConf.Image := rfl

@[simp] lemma addBinds_ctrExecs (p : PhaseConfigProvider) (bs : List String) :
    (addBinds p bs).ctrExecs = p.ctrExecs := rfl

@[simp] lemma addBinds_os (p : PhaseConfigProvider) (bs : List String) :
    (addBinds p bs).os = p.os := rfl

lemma WithLifecycleProxy_Env (le : LifecycleExecution)
    (p : PhaseConfigProvider) :
    (WithLifecycleProxy le p).ctrConf.Env = p.ctrConf.Env ++ proxyEnvs le := by
  unfold WithLifecycleProxy proxyEnvs
  split <;> split <;> split <;> simp

lemma WithLifecycleProxy_eq (le : LifecycleExecution)
    (p : PhaseConfigProvider) :
    WithLifecycleProxy le p = addEnv p (proxyEnvs le) := by
  unfold WithLifecycleProxy proxyEnvs addEnv
  split <;> split <;> split <;> simp

@[simp] lemma applyOps_nil (p : PhaseConfigProvider) :
    applyOps [] p = p := rfl

@[simp] lemma applyOps_cons (op : PhaseConfigProviderOperation)
    (ops : List PhaseConfigProviderOperation) (p : PhaseConfigProvider) :
    applyOps (op :: ops) p = applyOps ops (op p) := rfl

lemma applyOps_append (xs ys : List PhaseConfigProviderOperation)
    (p : PhaseConfigProvider) :
    applyOps (xs ++ ys) p = applyOps ys (applyOps xs p) := by
  simp [applyOps, List.foldl_append]

/-- The net effect of the mandatory block on any provider state: the
platform-API entry and the proxy entries are appended to the env, the two
core volume binds are appended to the binds, and nothing else changes. -/
lemma applyOps_mandatory (le : LifecycleExecution)
    (p : PhaseConfigProvider) :
    applyOps (mandatoryOps le) p =
      addBinds (addEnv p (platformEnvEntry le :: proxyEnvs le))
        [layersBind le, appBind le] := by
  simp [mandatoryOps, applyOps, WithEnv, WithBinds,
    WithLifecycleProxy_eq, addEnv, addBinds]

@[simp] lemma finalizeCmd_Cmd (name : String) (p : PhaseConfigProvider) :
    (finalizeCmd name p).ctrConf.Cmd =
      ("/cnb/lifecycle/" ++ name) :: p.ctrConf.Cmd := rfl

@[simp] lemma finalizeCmd_Env (name : String) (p : PhaseConfigProvider) :
    (finalizeCmd name p).ctrConf.Env = p.ctrConf.Env := rfl

@[simp] lemma finalizeCmd_Binds (name : String) (p : PhaseConfigProvider) :
    (finalizeCmd name p).hostConf.Binds = p.hostConf.Binds := rfl

@[simp] lemma finalizeCmd_Image (name : String) (p : PhaseConfigProvider) :
    (finalizeCmd name p).ctrConf.Image = p.ctrConf.Image := rfl

@[simp] lemma finalizeCmd_ctrExecs (name : String) (p : PhaseConfigProvider) :
    (finalizeCmd name p).ctrExecs = p.ctrExecs := rfl

/-- Every catalog operation leaves `ctrExecs` and `os` unchanged on a
non-Windows provider: only `WithRoot` (also reached through
`WithDaemonAccess`) writes `ctrExecs`, and only on Windows. -/
lemma catalogOp_preserves_execs (o : CatalogOp) (p : PhaseConfigProvider)
    (h : p.os ≠ "windows") :
    (o.run p).ctrExecs = p.ctrExecs ∧ (o.run p).os = p.os := by
  cases o <;>
    simp [CatalogOp.run, WithArgs, WithFlags, WithBinds, WithDaemonAccess,
      WithEnv, WithImage, WithLogPrefix, WithLifecycleProxy_eq, WithNetwork,
      WithRegistryAccess, WithRoot, WithContainerOperations, NullOp, h,
      addEnv, addBinds]
  all_goals split <;> simp

lemma applyOps_catalog_execs (ops : List CatalogOp)
    (p : PhaseConfigProvider) (h : p.os ≠ "windows") :
    (applyOps (ops.map CatalogOp.run) p).ctrExecs = p.ctrExecs ∧
    (applyOps (ops.map CatalogOp.run) p).os = p.os := by
  induction ops generalizing p with
  | nil => simp
  | cons o rest ih =>
    obtain ⟨h1, h2⟩ := catalogOp_preserves_execs o p h
    obtain ⟨h3, h4⟩ := ih (o.run p) (h2 ▸ h)
    simp only [List.map_cons, applyOps_cons]
    exact ⟨h3.trans h1, h4.trans h2⟩

/-- Every catalog operation either leaves the image reference unchanged or
is a `WithImage` and overwrites it with the argument of that operation. -/
lemma catalogOp_Image (o : CatalogOp) (p : PhaseConfigProvider) :
    (o.run p).ctrConf.Image = p.ctrConf.Image ∨
      ∃ img, o = CatalogOp.withImage img ∧ (o.run p).ctrConf.Image = img := by
  cases o <;>
    first
      | (left;
         simp [CatalogOp.run, WithArgs, WithFlags, WithBinds,
           WithDaemonAccess, WithEnv, WithLogPrefix, WithLifecycleProxy_eq,
           WithNetwork, WithRegistryAccess, WithRoot,
           WithContainerOperations, NullOp, addEnv, addBinds] <;>
         (first | (split <;> simp) | rfl))
      | (right; exact ⟨_, rfl, rfl⟩)

lemma applyOps_catalog_Image (ops : List CatalogOp)
    (p : PhaseConfigProvider) (hp : p.ctrConf.Image ≠ "")
    (himg : ∀ img, CatalogOp.withImage img ∈ ops → img ≠ "") :
    (applyOps (ops.map CatalogOp.run) p).ctrConf.Image ≠ "" := by
  induction ops generalizing p with
  | nil => simpa using hp
  | cons o rest ih =>
    have h1 : (o.run p).ctrConf.Image ≠ "" := by
      rcases catalogOp_Image o p with h | ⟨img, rfl, h⟩
      · rw [h]; exact hp
      · rw [h]; exact himg img (by simp)
    simp only [List.map_cons, applyOps_cons]
    exact ih (o.run p) h1 (fun img hm => himg img (List.mem_cons_of_mem _ hm))

/-- No sink equals one of its own prefix-wrappings. -/
lemma Writer.prefixed_ne (w : Writer) (pre : String) :
    Writer.prefixed w pre ≠ w := by
  induction w generalizing pre with
  | forLevel logger level => simp
  | prefixed inner q ih =>
    intro h
    injection h with h1 h2
    exact ih q h1

end Lemmas

section Examples

/-- A concrete Linux execution context, as in the detector scenario of the spec:
no proxies, no registry access. -/
def exCtx : LifecycleExecution :=
  { os := "linux",
    opts := { BuilderName := "cnbs/sample-builder", HTTPProxy := "",
              HTTPSProxy := "", NoProxy := "" },
    platformAPI := "0.3",
    layersVolume := "pack-layers-vol",
    appVolume := "pack-app-vol",
    layersDir := "/layers",
    appDir := "/workspace",
    logger := 0 }

/-- `exCtx` with a Windows target. -/
def winCtx : LifecycleExecution := { exCtx with os := "windows" }

/-- `exCtx` with only the HTTPS proxy set. -/
def proxyCtx : LifecycleExecution :=
  { exCtx with
    opts := { exCtx.opts with HTTPSProxy := "https://proxy.example" } }

/-- `exCtx` with an empty builder image name. -/
def emptyBuilderCtx : LifecycleExecution :=
  { exCtx with opts := { exCtx.opts with BuilderName := "" } }

/-- A concrete freshly initialized provider over `exCtx`. -/
def exProvider : PhaseConfigProvider := initProvider "detector" exCtx

end Examples

section Claims

/-- C1: `NewPhaseConfigProvider` applies the caller operations first and the
mandatory operations (platform-API env var, proxy propagation, the two core
volume binds) last — no caller operation executes after a mandatory one — so
the platform-API env entry and the two core volume bind strings are present
in the finalized specification for every caller operation list. -/
theorem mandatory_ops_apply_last (name : String) (le : LifecycleExecution)
    (ops : List PhaseConfigProviderOperation) :
    NewPhaseConfigProvider name le ops =
      finalizeCmd name
        (applyOps (mandatoryOps le) (applyOps ops (initProvider name le))) ∧
    platformEnvEntry le ∈ (NewPhaseConfigProvider name le ops).ctrConf.Env ∧
    layersBind le ∈ (NewPhaseConfigProvider name le ops).hostConf.Binds ∧
    appBind le ∈ (NewPhaseConfigProvider name le ops).hostConf.Binds := by
  refine ⟨by simp [NewPhaseConfigProvider, applyOps_append], ?_, ?_, ?_⟩ <;>
    simp [NewPhaseConfigProvider, applyOps_append, applyOps_mandatory]

/-- C2: for every phase name and operation list, the finalized command vector
is non-empty, its element 0 is `/cnb/lifecycle/<phase-name>`, and the tokens
contributed by the operations form the tail after element 0. -/
theorem cmd_head_is_lifecycle_path (name : String) (le : LifecycleExecution)
    (ops : List PhaseConfigProviderOperation) :
    (NewPhaseConfigProvider name le ops).ctrConf.Cmd ≠ [] ∧
    (NewPhaseConfigProvider name le ops).ctrConf.Cmd.head? =
      some ("/cnb/lifecycle/" ++ name) ∧
    (NewPhaseConfigProvider name le ops).ctrConf.Cmd.tail =
      (applyOps (ops ++ mandatoryOps le)
        (initProvider name le)).ctrConf.Cmd := by
  simp [NewPhaseConfigProvider]

/-- C3 counterexample: in the detector scenario (Linux target, caller
operations `[WithBinds ["/tmp/cache:/cache"]]`, no proxies, no registry
access) the finalized bind list is NOT `[layers-bind, app-bind, caller-bind]`
as the claim states: the caller bind lands first because the mandatory bind
operation runs after the caller operations. -/
theorem detector_scenario_counterexample :
    ¬ ((NewPhaseConfigProvider "detector" exCtx
          [WithBinds ["/tmp/cache:/cache"]]).hostConf.Binds =
        [layersBind exCtx, appBind exCtx, "/tmp/cache:/cache"]) := by
  decide

/-- C3 amended: same scenario, with the bind order corrected to caller bind
first, then layers bind, then app bind; the command vector is exactly
`["/cnb/lifecycle/detector"]`; the env list is exactly the platform-API
entry, so it contains `CNB_PLATFORM_API=<version>` and no
`CNB_REGISTRY_AUTH` entry and no daemon-socket bind is present. -/
theorem detector_scenario_amended :
    (NewPhaseConfigProvider "detector" exCtx
        [WithBinds ["/tmp/cache:/cache"]]).hostConf.Binds =
      ["/tmp/cache:/cache", layersBind exCtx, appBind exCtx] ∧
    (NewPhaseConfigProvider "detector" exCtx
        [WithBinds ["/tmp/cache:/cache"]]).ctrConf.Cmd =
      ["/cnb/lifecycle/detector"] ∧
    (NewPhaseConfigProvider "detector" exCtx
        [WithBinds ["/tmp/cache:/cache"]]).ctrConf.Env =
      [platformEnvEntry exCtx] := by
  refine ⟨rfl, rfl, rfl⟩

/-- C4 counterexample: the finalized image reference can be empty — a caller
`WithImage ""` overwrites it with the empty string, and an execution context
with an empty builder name starts it empty. -/
theorem image_nonempty_counterexample :
    (NewPhaseConfigProvider "detector" exCtx [WithImage ""]).ctrConf.Image =
      "" ∧
    (NewPhaseConfigProvider "detector" emptyBuilderCtx []).ctrConf.Image =
      "" := by
  exact ⟨rfl, rfl⟩

/-- C4 amended: if the builder image name of the execution context is non-empty
and every `WithImage` among the caller catalog operations carries a non-empty
reference, the finalized image reference is non-empty. -/
theorem image_nonempty_amended (name : String) (le : LifecycleExecution)
    (ops : List CatalogOp) (hb : le.opts.BuilderName ≠ "")
    (himg : ∀ img, CatalogOp.withImage img ∈ ops → img ≠ "") :
    (NewPhaseConfigProvider name le
      (ops.map CatalogOp.run)).ctrConf.Image ≠ "" := by
  unfold NewPhaseConfigProvider
  rw [applyOps_append, applyOps_mandatory]
  simp only [finalizeCmd_Image, addBinds_Image, addEnv_Image]
  exact applyOps_catalog_Image ops _ (by simpa [initProvider] using hb) himg

/-- C4 witness: the amended statement at a concrete input. -/
theorem image_nonempty_witness :
    (NewPhaseConfigProvider "detector" exCtx
      ([CatalogOp.withImage "cnbs/other-builder"].map
        CatalogOp.run)).ctrConf.Image ≠ "" :=
  image_nonempty_amended "detector" exCtx
    [CatalogOp.withImage "cnbs/other-builder"] (by decide)
    (fun img hm => by
      simp only [List.mem_singleton, CatalogOp.withImage.injEq] at hm
      subst hm; decide)

/-- C5: `WithFlags` prepends — a second call lands ahead of the first — and
`WithArgs` appends — calls preserve call order. -/
theorem flags_prepend_args_append (p : PhaseConfigProvider) :
    (WithFlags ["b"] (WithFlags ["a"] p)).ctrConf.Cmd =
      "b" :: "a" :: p.ctrConf.Cmd ∧
    (WithArgs ["y"] (WithArgs ["x"] p)).ctrConf.Cmd =
      p.ctrConf.Cmd ++ ["x", "y"] := by
  constructor <;> simp [WithFlags, WithArgs]

/-- C6: `WithDaemonAccess` on a Windows-target provider appends the
named-pipe bind and sets the Windows administrative identity; on any other
target it appends the POSIX socket bind and sets the root account. -/
theorem daemon_access_by_os (p : PhaseConfigProvider) :
    (WithDaemonAccess p).hostConf.Binds =
      p.hostConf.Binds ++
        [if p.os = "windows" then windowsDaemonBind else posixDaemonBind] ∧
    (WithDaemonAccess p).ctrConf.User =
      (if p.os = "windows" then windowsContainerAdmin
       else linuxContainerAdmin) := by
  by_cases h : p.os = "windows" <;>
    simp [WithDaemonAccess, WithRoot, h, addBinds]

/-- C7: `WithLifecycleProxy` appends, for each non-empty proxy setting, the
upper-case and lower-case env entries carrying that value (and nothing for an
empty setting); with only an HTTPS proxy set it appends exactly the two HTTPS
entries. -/
theorem proxy_env_pairs (le : LifecycleExecution) (p : PhaseConfigProvider) :
    (WithLifecycleProxy le p).ctrConf.Env = p.ctrConf.Env ++ proxyEnvs le ∧
    (le.opts.HTTPProxy = "" → le.opts.NoProxy = "" →
      le.opts.HTTPSProxy ≠ "" →
      (WithLifecycleProxy le p).ctrConf.Env =
        p.ctrConf.Env ++
          ["HTTPS_PROXY=" ++ le.opts.HTTPSProxy,
           "https_proxy=" ++ le.opts.HTTPSProxy]) := by
  refine ⟨WithLifecycleProxy_Env le p, fun h1 h2 h3 => ?_⟩
  simp [WithLifecycleProxy_Env, proxyEnvs, h1, h2, h3]

/-- C7 witness: the HTTPS-only case at a concrete input. -/
theorem proxy_env_pairs_witness :
    (WithLifecycleProxy proxyCtx exProvider).ctrConf.Env =
      exProvider.ctrConf.Env ++
        ["HTTPS_PROXY=" ++ proxyCtx.opts.HTTPSProxy,
         "https_proxy=" ++ proxyCtx.opts.HTTPSProxy] :=
  (proxy_env_pairs proxyCtx exProvider).2 rfl rfl (by decide)

/-- C8: `WithLogPrefix ""` is the identity; for a non-empty prefix it wraps
both sinks in a prefixing writer over the previous sinks, and applying it
twice wraps twice, so it is not idempotent. -/
theorem log_prefix_wrapping (p : PhaseConfigProvider) (pre : String) :
    WithLogPrefix "" p = p ∧
    (pre ≠ "" →
      (WithLogPrefix pre p).infoWriter =
        Writer.prefixed p.infoWriter pre ∧
      (WithLogPrefix pre p).errorWriter =
        Writer.prefixed p.errorWriter pre ∧
      (WithLogPrefix pre (WithLogPrefix pre p)).infoWriter =
        Writer.prefixed (Writer.prefixed p.infoWriter pre) pre ∧
      WithLogPrefix pre (WithLogPrefix pre p) ≠ WithLogPrefix pre p) := by
  refine ⟨by simp [WithLogPrefix], fun h => ?_⟩
  refine ⟨by simp [WithLogPrefix, NewPrefixWriter, h],
          by simp [WithLogPrefix, NewPrefixWriter, h],
          by simp [WithLogPrefix, NewPrefixWriter, h], fun heq => ?_⟩
  have hw := congrArg PhaseConfigProvider.infoWriter heq
  simp [WithLogPrefix, NewPrefixWriter, h] at hw
  exact Writer.prefixed_ne p.infoWriter pre hw

/-- C8 witness: the wrapping statement at a concrete provider with prefix
`"build"`. -/
theorem log_prefix_wrapping_witness :
    WithLogPrefix "" exProvider = exProvider ∧
    ((WithLogPrefix "build" exProvider).infoWriter =
        Writer.prefixed exProvider.infoWriter "build" ∧
      (WithLogPrefix "build" exProvider).errorWriter =
        Writer.prefixed exProvider.errorWriter "build" ∧
      (WithLogPrefix "build"
          (WithLogPrefix "build" exProvider)).infoWriter =
        Writer.prefixed (Writer.prefixed exProvider.infoWriter "build")
          "build" ∧
      WithLogPrefix "build" (WithLogPrefix "build" exProvider) ≠
        WithLogPrefix "build" exProvider) :=
  ⟨(log_prefix_wrapping exProvider "build").1,
   (log_prefix_wrapping exProvider "build").2 (by decide)⟩

/-- C9: `WithRoot` on a Windows-target provider leaves exactly one auxiliary
exec descriptor — detached, stdin-attached, empty user, running the fixed
blocking `cmd.exe` prompt — while on a non-Windows target the auxiliary exec
descriptor list of a finalized specification stays empty for every list of
catalog operations. -/
theorem elevate_privileges_execs (p : PhaseConfigProvider) (name : String)
    (le : LifecycleExecution) (ops : List CatalogOp) :
    (p.os = "windows" →
      (WithRoot p).ctrExecs =
        [{ Cmd := ["cmd.exe", "/c", "set /p wait="], Detach := true,
           AttachStdin := true, User := "" }]) ∧
    (le.os ≠ "windows" →
      (NewPhaseConfigProvider name le
        (ops.map CatalogOp.run)).ctrExecs = []) := by
  constructor
  · intro h
    simp [WithRoot, h]
  · intro h
    unfold NewPhaseConfigProvider
    rw [applyOps_append, applyOps_mandatory]
    simp only [finalizeCmd_ctrExecs, addBinds_ctrExecs, addEnv_ctrExecs]
    have hos : (initProvider name le).os ≠ "windows" := by
      simpa [initProvider] using h
    exact
      (applyOps_catalog_execs ops (initProvider name le) hos).1.trans rfl

/-- C9 witness: both branches at concrete inputs — a Windows provider for the
descriptor, and a Linux build applying `WithRoot` and `WithDaemonAccess`. -/
theorem elevate_privileges_execs_witness :
    (WithRoot (initProvider "creator" winCtx)).ctrExecs =
      [{ Cmd := ["cmd.exe", "/c", "set /p wait="], Detach := true,
         AttachStdin := true, User := "" }] ∧
    (NewPhaseConfigProvider "detector" exCtx
      ([CatalogOp.withRoot, CatalogOp.withDaemonAccess].map
        CatalogOp.run)).ctrExecs = [] :=
  ⟨(elevate_privileges_execs (initProvider "creator" winCtx) "detector"
      exCtx [CatalogOp.withRoot, CatalogOp.withDaemonAccess]).1 rfl,
   (elevate_privileges_execs (initProvider "creator" winCtx) "detector"
      exCtx [CatalogOp.withRoot, CatalogOp.withDaemonAccess]).2 (by decide)⟩

/-- C10: `NullOp` changes nothing — it returns the provider unchanged in
every field — so inserting it anywhere in a caller operation list yields the
same finalized specification as omitting it. -/
theorem nullOp_identity (p : PhaseConfigProvider) (name : String)
    (le : LifecycleExecution)
    (ops1 ops2 : List PhaseConfigProviderOperation) :
    NullOp p = p ∧
    NewPhaseConfigProvider name le (ops1 ++ NullOp :: ops2) =
      NewPhaseConfigProvider name le (ops1 ++ ops2) := by
  refine ⟨rfl, ?_⟩
  unfold NewPhaseConfigProvider
  simp [applyOps_append, applyOps, NullOp]

end Claims

end PackBuild
